import Mathlib

/-!
Verification of the risk-prediction engine of the healthcare readmission
predictor.  The definitions below are a shallow embedding, over the reals, of
`SurvivalAnalysisService` in `main.ts` (mirrored by `SurvivalAnalysisEngine`
in the C# service layer): the Weibull baseline survival and hazard functions,
the Cox proportional-hazards score, the 30/60/90-day risk projection with
clamping and categorization, the care-plan generator, and the competing-risks
decomposition.
-/

namespace Readmission

/-- Patient covariates, from the `RiskPredictionDto` class in `main.ts`. -/
structure RiskPredictionDto where
  patientId : String
  age : ℝ
  numComorbidities : ℝ
  priorAdmissions : ℝ
  diabetes : Bool
  chf : Bool
  copd : Bool
  socioeconomicIndex : ℝ

/-- `calculateWeibullSurvival(time, shape, scale)` from `main.ts`:
`Math.exp(-Math.pow(time / scale, shape))`.  The TypeScript defaults are
`shape = 1.5`, `scale = 60`; call sites below pass them explicitly. -/
noncomputable def calculateWeibullSurvival (time shape scale : ℝ) : ℝ :=
  Real.exp (-((time / scale) ^ shape))

/-- `calculateHazardRate(time, shape, scale)` from `main.ts`:
`(shape / scale) * Math.pow(time / scale, shape - 1)`. -/
noncomputable def calculateHazardRate (time shape scale : ℝ) : ℝ :=
  (shape / scale) * (time / scale) ^ (shape - 1)

/-- `calculateCoxRiskScore(patientFeatures)` from `main.ts`: the linear
predictor over the fixed coefficient table, exponentiated. -/
noncomputable def calculateCoxRiskScore (p : RiskPredictionDto) : ℝ :=
  Real.exp (
    0.035 * (p.age - 65) / 10 +
    0.52 * p.numComorbidities +
    0.64 * p.priorAdmissions +
    0.52 * (if p.diabetes then (1 : ℝ) else 0) +
    0.76 * (if p.chf then (1 : ℝ) else 0) +
    0.41 * (if p.copd then (1 : ℝ) else 0) +
    (-0.015) * (p.socioeconomicIndex - 50) / 50)

/-- The inline categorization expression of `main.ts` line 211:
`risk30 > 0.6 ? 'high' : risk30 > 0.3 ? 'medium' : 'low'`. -/
noncomputable def riskCategoryOf (risk30 : ℝ) : String :=
  if risk30 > 0.6 then "high" else if risk30 > 0.3 then "medium" else "low"

/-- The assessment record returned by `predictReadmissionRisk` in `main.ts`. -/
structure RiskAssessment where
  risk30Day : ℝ
  risk60Day : ℝ
  risk90Day : ℝ
  hazardRatio : ℝ
  riskCategory : String
  confidenceLower : ℝ
  confidenceUpper : ℝ

/-- `predictReadmissionRisk(patientFeatures)` from `main.ts`. -/
noncomputable def predictReadmissionRisk (p : RiskPredictionDto) : RiskAssessment :=
  let hr := calculateCoxRiskScore p
  let baselineSurvival30 := calculateWeibullSurvival 30 1.5 60
  let baselineSurvival60 := calculateWeibullSurvival 60 1.5 60
  let baselineSurvival90 := calculateWeibullSurvival 90 1.5 60
  let adjustedSurvival30 := baselineSurvival30 ^ hr
  let adjustedSurvival60 := baselineSurvival60 ^ hr
  let adjustedSurvival90 := baselineSurvival90 ^ hr
  let risk30 := 1 - adjustedSurvival30
  let risk60 := 1 - adjustedSurvival60
  let risk90 := 1 - adjustedSurvival90
  { risk30Day := min (max risk30 0) 1
    risk60Day := min (max risk60 0) 1
    risk90Day := min (max risk90 0) 1
    hazardRatio := hr
    riskCategory := riskCategoryOf risk30
    confidenceLower := max 0 (risk30 * 0.85)
    confidenceUpper := min 1 (risk30 * 1.15) }

/-- `generateCarePlan(riskAssessment)` from `main.ts`: branches on the
assessment's `risk30Day` field. -/
noncomputable def generateCarePlan (riskAssessment : RiskAssessment) : List String :=
  if riskAssessment.risk30Day > 0.6 then
    ["HIGH PRIORITY: Schedule follow-up within 3 days of discharge",
     "Arrange home health nursing visit within 24 hours",
     "Implement daily medication adherence monitoring",
     "Consider transitional care management program enrollment",
     "Schedule telehealth check-in at 48 hours post-discharge",
     "Ensure caregiver education and support systems in place"]
  else if riskAssessment.risk30Day > 0.3 then
    ["Schedule follow-up within 7 days of discharge",
     "Medication reconciliation and adherence counseling required",
     "Provide written discharge instructions with 24/7 contact numbers",
     "Arrange follow-up call within 48-72 hours",
     "Consider home health evaluation"]
  else
    ["Standard follow-up within 14 days of discharge",
     "Provide discharge education materials",
     "Ensure understanding of medication regimen",
     "Provide emergency contact information"]

/-- The record returned by `calculateCompetingRisks` in `main.ts`. -/
structure CompetingRisks where
  readmission : ℝ
  death : ℝ
  transfer : ℝ
  recovery : ℝ

/-- `calculateCompetingRisks(time)` from `main.ts`: four saturating-exponential
base weights, each returned divided by their sum (with no special case for a
zero sum; real-number division by zero yields 0 here, IEEE yields NaN). -/
noncomputable def calculateCompetingRisks (time : ℝ) : CompetingRisks :=
  let baseReadmission := 0.4 * (1 - Real.exp (-time / 45))
  let baseDeath := 0.1 * (1 - Real.exp (-time / 60))
  let baseTransfer := 0.12 * (1 - Real.exp (-time / 50))
  let baseRecovery := 0.38 * (1 - Real.exp (-time / 40))
  let total := baseReadmission + baseDeath + baseTransfer + baseRecovery
  { readmission := baseReadmission / total
    death := baseDeath / total
    transfer := baseTransfer / total
    recovery := baseRecovery / total }

/-- The category-keyed care-plan selector: `GenerateCarePlan(risk30,
riskCategory)` from the C# `SurvivalAnalysisEngine`, which branches on the
category string exactly as the spec's `CarePlanSelector.select(category)`
describes (a fixed total mapping from category to an ordered list). -/
def selectCarePlan (category : String) : List String :=
  if category = "high" then
    ["HIGH PRIORITY: Schedule follow-up within 3 days of discharge",
     "Arrange home health nursing visit within 24 hours",
     "Implement daily medication adherence monitoring",
     "Consider transitional care management program enrollment",
     "Schedule telehealth check-in at 48 hours post-discharge",
     "Ensure caregiver education and support systems in place"]
  else if category = "medium" then
    ["Schedule follow-up within 7 days of discharge",
     "Medication reconciliation and adherence counseling required",
     "Provide written discharge instructions with 24/7 contact numbers",
     "Arrange follow-up call within 48-72 hours",
     "Consider home health evaluation"]
  else
    ["Standard follow-up within 14 days of discharge",
     "Provide discharge education materials",
     "Ensure understanding of medication regimen",
     "Provide emergency contact information"]

/-- The baseline example features of the spec (section 8): age 65, no
comorbidities, no prior admissions, no conditions, socioeconomic index 50. -/
noncomputable def exampleLow : RiskPredictionDto :=
  { patientId := "P-LOW", age := 65, numComorbidities := 0, priorAdmissions := 0,
    diabetes := false, chf := false, copd := false, socioeconomicIndex := 50 }

/-- Baseline features with one comorbidity: linear predictor 0.52. -/
noncomputable def exampleMedium : RiskPredictionDto :=
  { patientId := "P-MED", age := 65, numComorbidities := 1, priorAdmissions := 0,
    diabetes := false, chf := false, copd := false, socioeconomicIndex := 50 }

/-- Baseline features with ten prior admissions: linear predictor 6.4. -/
noncomputable def exampleHigh : RiskPredictionDto :=
  { patientId := "P-HIGH", age := 65, numComorbidities := 0, priorAdmissions := 10,
    diabetes := false, chf := false, copd := false, socioeconomicIndex := 50 }

/-! ### Basic facts about the embedded functions -/

lemma weibull_pos (time shape scale : ℝ) : 0 < calculateWeibullSurvival time shape scale :=
  Real.exp_pos _

lemma weibull_lt_one {t : ℝ} (ht : 0 < t) : calculateWeibullSurvival t 1.5 60 < 1 := by
  unfold calculateWeibullSurvival
  have h : 0 < (t / 60 : ℝ) ^ (1.5 : ℝ) :=
    Real.rpow_pos_of_pos (by positivity) _
  calc Real.exp (-((t / 60 : ℝ) ^ (1.5 : ℝ))) < Real.exp 0 :=
        Real.exp_lt_exp.mpr (by linarith)
    _ = 1 := Real.exp_zero

lemma weibull_antitone {t t' : ℝ} (ht : 0 ≤ t) (htt : t ≤ t') :
    calculateWeibullSurvival t' 1.5 60 ≤ calculateWeibullSurvival t 1.5 60 := by
  unfold calculateWeibullSurvival
  apply Real.exp_le_exp.mpr
  apply neg_le_neg
  exact Real.rpow_le_rpow (by positivity) (by linarith) (by norm_num)

lemma score_pos (p : RiskPredictionDto) : 0 < calculateCoxRiskScore p :=
  Real.exp_pos _

lemma clamp_of_mem {x : ℝ} (h0 : 0 ≤ x) (h1 : x ≤ 1) : min (max x 0) 1 = x := by
  rw [max_eq_left h0, min_eq_left h1]

lemma clamp_mono {x y : ℝ} (h : x ≤ y) : min (max x 0) 1 ≤ min (max y 0) 1 :=
  min_le_min (max_le_max h le_rfl) le_rfl

/-! ### Unfolding the risk projection -/

lemma predict_risk30 (p : RiskPredictionDto) :
    (predictReadmissionRisk p).risk30Day =
      min (max (1 - calculateWeibullSurvival 30 1.5 60 ^ calculateCoxRiskScore p) 0) 1 := rfl

lemma predict_risk60 (p : RiskPredictionDto) :
    (predictReadmissionRisk p).risk60Day =
      min (max (1 - calculateWeibullSurvival 60 1.5 60 ^ calculateCoxRiskScore p) 0) 1 := rfl

lemma predict_risk90 (p : RiskPredictionDto) :
    (predictReadmissionRisk p).risk90Day =
      min (max (1 - calculateWeibullSurvival 90 1.5 60 ^ calculateCoxRiskScore p) 0) 1 := rfl

lemma predict_category (p : RiskPredictionDto) :
    (predictReadmissionRisk p).riskCategory =
      riskCategoryOf (1 - calculateWeibullSurvival 30 1.5 60 ^ calculateCoxRiskScore p) := rfl

lemma predict_hr (p : RiskPredictionDto) :
    (predictReadmissionRisk p).hazardRatio = calculateCoxRiskScore p := rfl

lemma adjusted_mem (t : ℝ) (ht : 0 < t) (p : RiskPredictionDto) :
    0 < calculateWeibullSurvival t 1.5 60 ^ calculateCoxRiskScore p ∧
      calculateWeibullSurvival t 1.5 60 ^ calculateCoxRiskScore p < 1 :=
  ⟨Real.rpow_pos_of_pos (weibull_pos _ _ _) _,
   Real.rpow_lt_one (weibull_pos _ _ _).le (weibull_lt_one ht) (score_pos p)⟩

lemma raw30_mem (p : RiskPredictionDto) :
    0 < 1 - calculateWeibullSurvival 30 1.5 60 ^ calculateCoxRiskScore p ∧
      1 - calculateWeibullSurvival 30 1.5 60 ^ calculateCoxRiskScore p < 1 := by
  obtain ⟨h0, h1⟩ := adjusted_mem 30 (by norm_num) p
  constructor <;> linarith

lemma predict_risk30_eq (p : RiskPredictionDto) :
    (predictReadmissionRisk p).risk30Day =
      1 - calculateWeibullSurvival 30 1.5 60 ^ calculateCoxRiskScore p := by
  obtain ⟨h0, h1⟩ := raw30_mem p
  rw [predict_risk30, clamp_of_mem h0.le h1.le]

/-! ### Characterizing the inline categorization -/

lemma riskCategoryOf_eq_high {r : ℝ} : riskCategoryOf r = "high" ↔ 0.6 < r := by
  unfold riskCategoryOf
  by_cases h1 : r > 0.6
  · rw [if_pos h1]
    exact iff_of_true rfl h1
  · rw [if_neg h1]
    by_cases h2 : r > 0.3
    · rw [if_pos h2]
      exact iff_of_false (by decide) h1
    · rw [if_neg h2]
      exact iff_of_false (by decide) h1

lemma riskCategoryOf_eq_medium {r : ℝ} :
    riskCategoryOf r = "medium" ↔ 0.3 < r ∧ r ≤ 0.6 := by
  unfold riskCategoryOf
  by_cases h1 : r > 0.6
  · rw [if_pos h1]
    exact iff_of_false (by decide) (fun h => absurd h1 (not_lt.mpr h.2))
  · rw [if_neg h1]
    by_cases h2 : r > 0.3
    · rw [if_pos h2]
      exact iff_of_true rfl ⟨h2, not_lt.mp h1⟩
    · rw [if_neg h2]
      exact iff_of_false (by decide) (fun h => h2 h.1)

lemma riskCategoryOf_eq_low {r : ℝ} : riskCategoryOf r = "low" ↔ r ≤ 0.3 := by
  unfold riskCategoryOf
  by_cases h1 : r > 0.6
  · rw [if_pos h1]
    exact iff_of_false (by decide) (fun h => absurd h1 (by norm_num; linarith))
  · rw [if_neg h1]
    by_cases h2 : r > 0.3
    · rw [if_pos h2]
      exact iff_of_false (by decide) (not_le.mpr h2)
    · rw [if_neg h2]
      exact iff_of_true rfl (not_lt.mp h2)

/-! ### Numeric bounds on the 30-day baseline exponent and its exponential -/

lemma x0_sq : (((30 : ℝ) / 60) ^ (1.5 : ℝ)) ^ (2 : ℕ) = 1 / 8 := by
  have h30 : ((30 : ℝ) / 60) = 1 / 2 := by norm_num
  have h1 : (((1 / 2 : ℝ)) ^ (1.5 : ℝ)) ^ (2 : ℕ) =
      ((1 / 2 : ℝ)) ^ ((1.5 : ℝ) * ((2 : ℕ) : ℝ)) := by
    rw [Real.rpow_mul (by norm_num : (0 : ℝ) ≤ 1 / 2), Real.rpow_natCast]
  have h2 : ((1.5 : ℝ) * ((2 : ℕ) : ℝ)) = ((3 : ℕ) : ℝ) := by norm_num
  rw [h30, h1, h2, Real.rpow_natCast]
  norm_num

lemma x0_pos : 0 < ((30 : ℝ) / 60) ^ (1.5 : ℝ) :=
  Real.rpow_pos_of_pos (by norm_num) _

lemma x0_lb : 0.35355 < ((30 : ℝ) / 60) ^ (1.5 : ℝ) := by
  nlinarith [x0_sq, x0_pos]

lemma x0_ub : ((30 : ℝ) / 60) ^ (1.5 : ℝ) < 0.35356 := by
  nlinarith [x0_sq, x0_pos]

lemma exp_lower_cubic {y : ℝ} (hy : 0 ≤ y) :
    1 + y + y ^ 2 / 2 + y ^ 3 / 6 ≤ Real.exp y := by
  have h := Real.sum_le_exp_of_nonneg hy 4
  rw [Finset.sum_range_succ, Finset.sum_range_succ, Finset.sum_range_succ,
    Finset.sum_range_one] at h
  norm_num [Nat.factorial] at h
  linarith

lemma exp_upper_cubic {y : ℝ} (h0 : 0 ≤ y) (h1 : y ≤ 1) :
    Real.exp y ≤ 1 + y + y ^ 2 / 2 + y ^ 3 * (2 / 9) := by
  have h := @Real.exp_bound' y h0 h1 3 (by norm_num)
  rw [Finset.sum_range_succ, Finset.sum_range_succ, Finset.sum_range_one] at h
  norm_num [Nat.factorial] at h
  linarith

lemma x0_cube : (((30 : ℝ) / 60) ^ (1.5 : ℝ)) ^ 3 =
    (((30 : ℝ) / 60) ^ (1.5 : ℝ)) * (1 / 8) := by
  have h : (((30 : ℝ) / 60) ^ (1.5 : ℝ)) ^ 3 =
      (((30 : ℝ) / 60) ^ (1.5 : ℝ)) * ((((30 : ℝ) / 60) ^ (1.5 : ℝ)) ^ (2 : ℕ)) := by
    ring
  rw [h, x0_sq]

lemma exp_x0_lb : 1.4234 < Real.exp (((30 : ℝ) / 60) ^ (1.5 : ℝ)) := by
  have h := exp_lower_cubic x0_pos.le
  rw [x0_sq, x0_cube] at h
  linarith [x0_lb]

lemma exp_x0_ub : Real.exp (((30 : ℝ) / 60) ^ (1.5 : ℝ)) < 1.4259 := by
  have h := exp_upper_cubic x0_pos.le (by linarith [x0_ub])
  rw [x0_sq, x0_cube] at h
  linarith [x0_ub]

lemma exp_neg_mul_exp (y : ℝ) : Real.exp (-y) * Real.exp y = 1 := by
  rw [← Real.exp_add]
  rw [show -y + y = 0 by ring]
  exact Real.exp_zero

lemma weibull30_eq :
    calculateWeibullSurvival 30 1.5 60 = Real.exp (-(((30 : ℝ) / 60) ^ (1.5 : ℝ))) := rfl

/-! ### The baseline example patient (hazard ratio 1) -/

lemma score_exampleLow : calculateCoxRiskScore exampleLow = 1 := by
  have h : calculateCoxRiskScore exampleLow = Real.exp 0 := by
    unfold calculateCoxRiskScore exampleLow
    norm_num
  rw [h, Real.exp_zero]

lemma exampleLow_risk30_eq :
    (predictReadmissionRisk exampleLow).risk30Day =
      1 - Real.exp (-(((30 : ℝ) / 60) ^ (1.5 : ℝ))) := by
  rw [predict_risk30_eq, score_exampleLow, Real.rpow_one, weibull30_eq]

lemma exp_neg_x0_bounds :
    0.701 < Real.exp (-(((30 : ℝ) / 60) ^ (1.5 : ℝ))) ∧
      Real.exp (-(((30 : ℝ) / 60) ^ (1.5 : ℝ))) < 0.703 := by
  have key := exp_neg_mul_exp (((30 : ℝ) / 60) ^ (1.5 : ℝ))
  have hA : 0 < Real.exp (-(((30 : ℝ) / 60) ^ (1.5 : ℝ))) := Real.exp_pos _
  constructor
  · nlinarith [key, exp_x0_ub, hA]
  · nlinarith [key, exp_x0_lb, hA]

lemma exampleLow_risk30_bounds :
    0.297 < (predictReadmissionRisk exampleLow).risk30Day ∧
      (predictReadmissionRisk exampleLow).risk30Day < 0.299 := by
  rw [exampleLow_risk30_eq]
  obtain ⟨h1, h2⟩ := exp_neg_x0_bounds
  constructor <;> linarith

lemma exampleLow_category :
    (predictReadmissionRisk exampleLow).riskCategory = "low" := by
  rw [predict_category]
  apply riskCategoryOf_eq_low.mpr
  rw [← predict_risk30_eq exampleLow]
  linarith [exampleLow_risk30_bounds.2]

/-! ### A medium-risk and a high-risk example patient -/

lemma score_exampleMedium : calculateCoxRiskScore exampleMedium = Real.exp 0.52 := by
  unfold calculateCoxRiskScore exampleMedium
  norm_num

lemma score_exampleHigh : calculateCoxRiskScore exampleHigh = Real.exp 6.4 := by
  unfold calculateCoxRiskScore exampleHigh
  norm_num

lemma exp052_lb : 1.52 ≤ Real.exp 0.52 := by
  have h := Real.add_one_le_exp (0.52 : ℝ)
  linarith

lemma exp052_ub : Real.exp 0.52 ≤ 1.687 := by
  have h := exp_upper_cubic (by norm_num : (0 : ℝ) ≤ 0.52) (by norm_num)
  nlinarith [h]

lemma risk_interval_of_u {u : ℝ} (h1 : 0.537 < u) (h2 : u < 0.597) :
    0.3 < 1 - Real.exp (-u) ∧ 1 - Real.exp (-u) ≤ 0.6 := by
  have key := exp_neg_mul_exp u
  have hA := Real.exp_pos (-u)
  have hEl : 1.537 < Real.exp u := by
    have h := Real.add_one_le_exp u
    linarith
  have hEu : Real.exp u ≤ 1.83 := by
    have h := exp_upper_cubic (by linarith : (0 : ℝ) ≤ u) (by linarith : u ≤ 1)
    have hu0 : (0 : ℝ) < u := by linarith
    have p1 : 0 < (0.597 - u) * u := mul_pos (by linarith) hu0
    have p2 : 0 < (0.597 - u) * u ^ 2 := mul_pos (by linarith) (by positivity)
    nlinarith [h, p1, p2]
  constructor
  · nlinarith [key, hEl, hA]
  · nlinarith [key, hEu, hA, Real.exp_pos u]

lemma exampleMedium_risk30_eq :
    (predictReadmissionRisk exampleMedium).risk30Day =
      1 - Real.exp (-(((30 : ℝ) / 60) ^ (1.5 : ℝ) * Real.exp 0.52)) := by
  rw [predict_risk30_eq, score_exampleMedium, weibull30_eq, ← Real.exp_mul, neg_mul]

lemma exampleMedium_risk30_bounds :
    0.3 < (predictReadmissionRisk exampleMedium).risk30Day ∧
      (predictReadmissionRisk exampleMedium).risk30Day ≤ 0.6 := by
  rw [exampleMedium_risk30_eq]
  apply risk_interval_of_u
  · nlinarith [x0_lb, exp052_lb, Real.exp_pos (0.52 : ℝ)]
  · nlinarith [x0_lb, x0_ub, exp052_lb, exp052_ub, x0_pos]

lemma exampleMedium_category :
    (predictReadmissionRisk exampleMedium).riskCategory = "medium" := by
  rw [predict_category]
  apply riskCategoryOf_eq_medium.mpr
  rw [← predict_risk30_eq exampleMedium]
  exact exampleMedium_risk30_bounds

lemma exampleHigh_risk30_eq :
    (predictReadmissionRisk exampleHigh).risk30Day =
      1 - Real.exp (-(((30 : ℝ) / 60) ^ (1.5 : ℝ) * Real.exp 6.4)) := by
  rw [predict_risk30_eq, score_exampleHigh, weibull30_eq, ← Real.exp_mul, neg_mul]

lemma exampleHigh_risk30_gt :
    0.6 < (predictReadmissionRisk exampleHigh).risk30Day := by
  rw [exampleHigh_risk30_eq]
  have hrl : 7.4 ≤ Real.exp 6.4 := by
    have h := Real.add_one_le_exp (6.4 : ℝ)
    linarith
  have hul : 2.6 < ((30 : ℝ) / 60) ^ (1.5 : ℝ) * Real.exp 6.4 := by
    nlinarith [x0_lb, Real.exp_pos (6.4 : ℝ)]
  have hEl : 3.6 ≤ Real.exp (((30 : ℝ) / 60) ^ (1.5 : ℝ) * Real.exp 6.4) := by
    have h := Real.add_one_le_exp (((30 : ℝ) / 60) ^ (1.5 : ℝ) * Real.exp 6.4)
    linarith
  have key := exp_neg_mul_exp (((30 : ℝ) / 60) ^ (1.5 : ℝ) * Real.exp 6.4)
  have hA := Real.exp_pos (-(((30 : ℝ) / 60) ^ (1.5 : ℝ) * Real.exp 6.4))
  nlinarith [key, hEl, hA]

lemma exampleHigh_category :
    (predictReadmissionRisk exampleHigh).riskCategory = "high" := by
  rw [predict_category]
  apply riskCategoryOf_eq_high.mpr
  rw [← predict_risk30_eq exampleHigh]
  exact exampleHigh_risk30_gt

lemma predict_category_eq (p : RiskPredictionDto) :
    (predictReadmissionRisk p).riskCategory =
      riskCategoryOf ((predictReadmissionRisk p).risk30Day) := by
  rw [predict_category, predict_risk30_eq]

lemma exp_neg_div_lt_one {t c : ℝ} (ht : 0 < t) (hc : 0 < c) :
    Real.exp (-t / c) < 1 := by
  rw [← Real.exp_zero]
  apply Real.exp_lt_exp.mpr
  rw [neg_div]
  have h := div_pos ht hc
  linarith

/-! ## Claim theorems -/

/-- C1: the competing-risks decomposition has no special case at t = 0: all
four base weights are 0 and the code divides 0 by 0 (NaN in IEEE arithmetic,
0 in this real-number embedding), so the returned components are each 0 —
not the equal 0.25 four-way split — and they sum to 0, not 1. -/
theorem c1_competing_risks_at_zero :
    (calculateCompetingRisks 0).readmission = 0 ∧
      (calculateCompetingRisks 0).death = 0 ∧
      (calculateCompetingRisks 0).transfer = 0 ∧
      (calculateCompetingRisks 0).recovery = 0 ∧
      (calculateCompetingRisks 0).readmission ≠ 0.25 ∧
      (calculateCompetingRisks 0).readmission + (calculateCompetingRisks 0).death +
          (calculateCompetingRisks 0).transfer + (calculateCompetingRisks 0).recovery ≠ 1 := by
  have h0 : calculateCompetingRisks 0 =
      { readmission := 0, death := 0, transfer := 0, recovery := 0 } := by
    unfold calculateCompetingRisks
    norm_num [Real.exp_zero]
  rw [h0]
  norm_num

/-- C2 counterexample: calling the baseline survival function with shape = 0
(violating the claimed precondition shape > 0) does not yield an
InvalidParameter failure: it returns the numeric value exp(−1). -/
theorem c2_counterexample : calculateWeibullSurvival 30 0 60 = Real.exp (-1) := by
  unfold calculateWeibullSurvival
  rw [Real.rpow_zero]

/-- C2 (amended): the baseline survival and hazard-rate functions perform no
domain validation; on out-of-domain arguments (shape = 0, t < 0, scale < 0)
they simply evaluate their formula and return a plain numeric result — the
engine has no InvalidParameter failure path. -/
theorem c2_no_domain_validation :
    calculateWeibullSurvival 30 0 60 = Real.exp (-1) ∧
      calculateHazardRate 30 0 60 = 0 ∧
      calculateWeibullSurvival (-30) 1 60 = Real.exp (1 / 2) ∧
      calculateWeibullSurvival 30 1 (-60) = Real.exp (1 / 2) ∧
      0 < calculateWeibullSurvival 30 0 60 := by
  refine ⟨?_, ?_, ?_, ?_, weibull_pos 30 0 60⟩
  · unfold calculateWeibullSurvival
    rw [Real.rpow_zero]
  · unfold calculateHazardRate
    norm_num
  · unfold calculateWeibullSurvival
    rw [Real.rpow_one]
    norm_num
  · unfold calculateWeibullSurvival
    rw [Real.rpow_one]
    norm_num

/-- C3: for every feature vector, the returned horizon risks are ordered
risk90Day ≥ risk60Day ≥ risk30Day: the hazard ratio is held fixed across
horizons and the baseline Weibull survival (shape 1.5 > 0, scale 60 > 0) is
non-increasing in time. -/
theorem c3_risk_monotone_in_horizon (p : RiskPredictionDto) :
    (predictReadmissionRisk p).risk30Day ≤ (predictReadmissionRisk p).risk60Day ∧
      (predictReadmissionRisk p).risk60Day ≤ (predictReadmissionRisk p).risk90Day := by
  have h1 : calculateWeibullSurvival 60 1.5 60 ≤ calculateWeibullSurvival 30 1.5 60 :=
    weibull_antitone (by norm_num) (by norm_num)
  have h2 : calculateWeibullSurvival 90 1.5 60 ≤ calculateWeibullSurvival 60 1.5 60 :=
    weibull_antitone (by norm_num) (by norm_num)
  have hp1 : calculateWeibullSurvival 60 1.5 60 ^ calculateCoxRiskScore p ≤
      calculateWeibullSurvival 30 1.5 60 ^ calculateCoxRiskScore p :=
    Real.rpow_le_rpow (weibull_pos _ _ _).le h1 (score_pos p).le
  have hp2 : calculateWeibullSurvival 90 1.5 60 ^ calculateCoxRiskScore p ≤
      calculateWeibullSurvival 60 1.5 60 ^ calculateCoxRiskScore p :=
    Real.rpow_le_rpow (weibull_pos _ _ _).le h2 (score_pos p).le
  rw [predict_risk30, predict_risk60, predict_risk90]
  exact ⟨clamp_mono (by linarith), clamp_mono (by linarith)⟩

/-- C4: the hazard-ratio computation is monotone in each covariate separately:
non-decreasing in age, numComorbidities and priorAdmissions, non-decreasing
when diabetes, chf or copd turns from false to true, and non-increasing in
socioeconomicIndex. -/
theorem c4_hazard_ratio_monotone :
    (∀ (p : RiskPredictionDto) (a a' : ℝ), a ≤ a' →
        calculateCoxRiskScore { p with age := a } ≤
          calculateCoxRiskScore { p with age := a' }) ∧
      (∀ (p : RiskPredictionDto) (n n' : ℝ), n ≤ n' →
        calculateCoxRiskScore { p with numComorbidities := n } ≤
          calculateCoxRiskScore { p with numComorbidities := n' }) ∧
      (∀ (p : RiskPredictionDto) (n n' : ℝ), n ≤ n' →
        calculateCoxRiskScore { p with priorAdmissions := n } ≤
          calculateCoxRiskScore { p with priorAdmissions := n' }) ∧
      (∀ (p : RiskPredictionDto),
        calculateCoxRiskScore { p with diabetes := false } ≤
          calculateCoxRiskScore { p with diabetes := true }) ∧
      (∀ (p : RiskPredictionDto),
        calculateCoxRiskScore { p with chf := false } ≤
          calculateCoxRiskScore { p with chf := true }) ∧
      (∀ (p : RiskPredictionDto),
        calculateCoxRiskScore { p with copd := false } ≤
          calculateCoxRiskScore { p with copd := true }) ∧
      (∀ (p : RiskPredictionDto) (s s' : ℝ), s ≤ s' →
        calculateCoxRiskScore { p with socioeconomicIndex := s' } ≤
          calculateCoxRiskScore { p with socioeconomicIndex := s }) := by
  refine ⟨?_, ?_, ?_, ?_, ?_, ?_, ?_⟩
  · intro p a a' h
    unfold calculateCoxRiskScore
    apply Real.exp_le_exp.mpr
    simp only
    linarith
  · intro p n n' h
    unfold calculateCoxRiskScore
    apply Real.exp_le_exp.mpr
    simp only
    linarith
  · intro p n n' h
    unfold calculateCoxRiskScore
    apply Real.exp_le_exp.mpr
    simp only
    linarith
  · intro p
    unfold calculateCoxRiskScore
    apply Real.exp_le_exp.mpr
    simp
    linarith
  · intro p
    unfold calculateCoxRiskScore
    apply Real.exp_le_exp.mpr
    simp
    linarith
  · intro p
    unfold calculateCoxRiskScore
    apply Real.exp_le_exp.mpr
    simp
    linarith
  · intro p s s' h
    unfold calculateCoxRiskScore
    apply Real.exp_le_exp.mpr
    simp only
    linarith

/-- C4 witness: the monotonicity theorem instantiated at concrete covariate
values around the baseline example patient. -/
theorem c4_hazard_ratio_monotone_witness :
    calculateCoxRiskScore { exampleLow with age := 60 } ≤
        calculateCoxRiskScore { exampleLow with age := 70 } ∧
      calculateCoxRiskScore { exampleLow with numComorbidities := 0 } ≤
        calculateCoxRiskScore { exampleLow with numComorbidities := 2 } ∧
      calculateCoxRiskScore { exampleLow with priorAdmissions := 1 } ≤
        calculateCoxRiskScore { exampleLow with priorAdmissions := 3 } ∧
      calculateCoxRiskScore { exampleLow with diabetes := false } ≤
        calculateCoxRiskScore { exampleLow with diabetes := true } ∧
      calculateCoxRiskScore { exampleLow with chf := false } ≤
        calculateCoxRiskScore { exampleLow with chf := true } ∧
      calculateCoxRiskScore { exampleLow with copd := false } ≤
        calculateCoxRiskScore { exampleLow with copd := true } ∧
      calculateCoxRiskScore { exampleLow with socioeconomicIndex := 90 } ≤
        calculateCoxRiskScore { exampleLow with socioeconomicIndex := 10 } :=
  ⟨c4_hazard_ratio_monotone.1 exampleLow 60 70 (by norm_num),
   c4_hazard_ratio_monotone.2.1 exampleLow 0 2 (by norm_num),
   c4_hazard_ratio_monotone.2.2.1 exampleLow 1 3 (by norm_num),
   c4_hazard_ratio_monotone.2.2.2.1 exampleLow,
   c4_hazard_ratio_monotone.2.2.2.2.1 exampleLow,
   c4_hazard_ratio_monotone.2.2.2.2.2.1 exampleLow,
   c4_hazard_ratio_monotone.2.2.2.2.2.2 exampleLow 10 90 (by norm_num)⟩

/-- C5: the risk category is determined from the 30-day risk alone by strict
thresholds: "high" iff risk30Day > 0.6, "medium" iff 0.3 < risk30Day ≤ 0.6,
"low" otherwise; in particular a 30-day risk of exactly 0.6 maps to "medium"
and exactly 0.3 maps to "low". -/
theorem c5_category_thresholds (p : RiskPredictionDto) :
    ((predictReadmissionRisk p).riskCategory = "high" ↔
        0.6 < (predictReadmissionRisk p).risk30Day) ∧
      ((predictReadmissionRisk p).riskCategory = "medium" ↔
        0.3 < (predictReadmissionRisk p).risk30Day ∧
          (predictReadmissionRisk p).risk30Day ≤ 0.6) ∧
      ((predictReadmissionRisk p).riskCategory = "low" ↔
        (predictReadmissionRisk p).risk30Day ≤ 0.3) ∧
      riskCategoryOf 0.6 = "medium" ∧ riskCategoryOf 0.3 = "low" := by
  refine ⟨?_, ?_, ?_, ?_, ?_⟩
  · rw [predict_category_eq]
    exact riskCategoryOf_eq_high
  · rw [predict_category_eq]
    exact riskCategoryOf_eq_medium
  · rw [predict_category_eq]
    exact riskCategoryOf_eq_low
  · exact riskCategoryOf_eq_medium.mpr (by norm_num)
  · exact riskCategoryOf_eq_low.mpr (by norm_num)

/-- C6: for every t > 0, the competing-risks decomposition computes the four
saturating-exponential bases w·(1 − exp(−t/τ)) with weights
(0.40, 0.10, 0.12, 0.38) and time constants (45, 60, 50, 40), returns each
base divided by the sum of the four, and the returned components sum to
exactly 1. -/
theorem c6_competing_risks_formula (t : ℝ) (ht : 0 < t) :
    (calculateCompetingRisks t).readmission =
        0.4 * (1 - Real.exp (-t / 45)) /
          (0.4 * (1 - Real.exp (-t / 45)) + 0.1 * (1 - Real.exp (-t / 60)) +
            0.12 * (1 - Real.exp (-t / 50)) + 0.38 * (1 - Real.exp (-t / 40))) ∧
      (calculateCompetingRisks t).death =
        0.1 * (1 - Real.exp (-t / 60)) /
          (0.4 * (1 - Real.exp (-t / 45)) + 0.1 * (1 - Real.exp (-t / 60)) +
            0.12 * (1 - Real.exp (-t / 50)) + 0.38 * (1 - Real.exp (-t / 40))) ∧
      (calculateCompetingRisks t).transfer =
        0.12 * (1 - Real.exp (-t / 50)) /
          (0.4 * (1 - Real.exp (-t / 45)) + 0.1 * (1 - Real.exp (-t / 60)) +
            0.12 * (1 - Real.exp (-t / 50)) + 0.38 * (1 - Real.exp (-t / 40))) ∧
      (calculateCompetingRisks t).recovery =
        0.38 * (1 - Real.exp (-t / 40)) /
          (0.4 * (1 - Real.exp (-t / 45)) + 0.1 * (1 - Real.exp (-t / 60)) +
            0.12 * (1 - Real.exp (-t / 50)) + 0.38 * (1 - Real.exp (-t / 40))) ∧
      (calculateCompetingRisks t).readmission + (calculateCompetingRisks t).death +
          (calculateCompetingRisks t).transfer + (calculateCompetingRisks t).recovery = 1 := by
  have h45 := exp_neg_div_lt_one ht (by norm_num : (0 : ℝ) < 45)
  have h60 := exp_neg_div_lt_one ht (by norm_num : (0 : ℝ) < 60)
  have h50 := exp_neg_div_lt_one ht (by norm_num : (0 : ℝ) < 50)
  have h40 := exp_neg_div_lt_one ht (by norm_num : (0 : ℝ) < 40)
  have hT : 0 < 0.4 * (1 - Real.exp (-t / 45)) + 0.1 * (1 - Real.exp (-t / 60)) +
      0.12 * (1 - Real.exp (-t / 50)) + 0.38 * (1 - Real.exp (-t / 40)) := by
    nlinarith
  refine ⟨rfl, rfl, rfl, rfl, ?_⟩
  show 0.4 * (1 - Real.exp (-t / 45)) /
        (0.4 * (1 - Real.exp (-t / 45)) + 0.1 * (1 - Real.exp (-t / 60)) +
          0.12 * (1 - Real.exp (-t / 50)) + 0.38 * (1 - Real.exp (-t / 40))) +
      0.1 * (1 - Real.exp (-t / 60)) /
        (0.4 * (1 - Real.exp (-t / 45)) + 0.1 * (1 - Real.exp (-t / 60)) +
          0.12 * (1 - Real.exp (-t / 50)) + 0.38 * (1 - Real.exp (-t / 40))) +
      0.12 * (1 - Real.exp (-t / 50)) /
        (0.4 * (1 - Real.exp (-t / 45)) + 0.1 * (1 - Real.exp (-t / 60)) +
          0.12 * (1 - Real.exp (-t / 50)) + 0.38 * (1 - Real.exp (-t / 40))) +
      0.38 * (1 - Real.exp (-t / 40)) /
        (0.4 * (1 - Real.exp (-t / 45)) + 0.1 * (1 - Real.exp (-t / 60)) +
          0.12 * (1 - Real.exp (-t / 50)) + 0.38 * (1 - Real.exp (-t / 40))) = 1
  rw [div_add_div_same, div_add_div_same, div_add_div_same, div_self hT.ne']

/-- C6 witness: the competing-risks theorem applied at t = 30. -/
theorem c6_competing_risks_formula_witness :
    (calculateCompetingRisks 30).readmission + (calculateCompetingRisks 30).death +
      (calculateCompetingRisks 30).transfer + (calculateCompetingRisks 30).recovery = 1 :=
  (c6_competing_risks_formula 30 (by norm_num)).2.2.2.2

/-- C7: the care plan attached to an assessment is a fixed total mapping of
the three risk categories: the high-category list has exactly its six fixed
items beginning with the 3-day follow-up recommendation, the medium-category
list its five fixed items, and the low-category list its four fixed items. -/
theorem c7_care_plan_mapping (p : RiskPredictionDto) :
    ((predictReadmissionRisk p).riskCategory = "high" →
        generateCarePlan (predictReadmissionRisk p) =
          ["HIGH PRIORITY: Schedule follow-up within 3 days of discharge",
           "Arrange home health nursing visit within 24 hours",
           "Implement daily medication adherence monitoring",
           "Consider transitional care management program enrollment",
           "Schedule telehealth check-in at 48 hours post-discharge",
           "Ensure caregiver education and support systems in place"]) ∧
      ((predictReadmissionRisk p).riskCategory = "medium" →
        generateCarePlan (predictReadmissionRisk p) =
          ["Schedule follow-up within 7 days of discharge",
           "Medication reconciliation and adherence counseling required",
           "Provide written discharge instructions with 24/7 contact numbers",
           "Arrange follow-up call within 48-72 hours",
           "Consider home health evaluation"]) ∧
      ((predictReadmissionRisk p).riskCategory = "low" →
        generateCarePlan (predictReadmissionRisk p) =
          ["Standard follow-up within 14 days of discharge",
           "Provide discharge education materials",
           "Ensure understanding of medication regimen",
           "Provide emergency contact information"]) := by
  refine ⟨?_, ?_, ?_⟩
  · intro h
    rw [predict_category_eq] at h
    have h6 := riskCategoryOf_eq_high.mp h
    unfold generateCarePlan
    rw [if_pos h6]
  · intro h
    rw [predict_category_eq] at h
    obtain ⟨h3, h6⟩ := riskCategoryOf_eq_medium.mp h
    unfold generateCarePlan
    rw [if_neg (not_lt.mpr h6), if_pos h3]
  · intro h
    rw [predict_category_eq] at h
    have h3 := riskCategoryOf_eq_low.mp h
    unfold generateCarePlan
    rw [if_neg (not_lt.mpr (by linarith)), if_neg (not_lt.mpr h3)]

/-- C7 witness: the mapping instantiated at a high-risk, a medium-risk and a
low-risk example patient. -/
theorem c7_care_plan_mapping_witness :
    generateCarePlan (predictReadmissionRisk exampleHigh) =
        ["HIGH PRIORITY: Schedule follow-up within 3 days of discharge",
         "Arrange home health nursing visit within 24 hours",
         "Implement daily medication adherence monitoring",
         "Consider transitional care management program enrollment",
         "Schedule telehealth check-in at 48 hours post-discharge",
         "Ensure caregiver education and support systems in place"] ∧
      generateCarePlan (predictReadmissionRisk exampleMedium) =
        ["Schedule follow-up within 7 days of discharge",
         "Medication reconciliation and adherence counseling required",
         "Provide written discharge instructions with 24/7 contact numbers",
         "Arrange follow-up call within 48-72 hours",
         "Consider home health evaluation"] ∧
      generateCarePlan (predictReadmissionRisk exampleLow) =
        ["Standard follow-up within 14 days of discharge",
         "Provide discharge education materials",
         "Ensure understanding of medication regimen",
         "Provide emergency contact information"] :=
  ⟨(c7_care_plan_mapping exampleHigh).1 exampleHigh_category,
   (c7_care_plan_mapping exampleMedium).2.1 exampleMedium_category,
   (c7_care_plan_mapping exampleLow).2.2 exampleLow_category⟩

/-- C8: for every feature vector, the three returned horizon risks lie in
[0, 1]; the projection is a total function on the embedded feature space. -/
theorem c8_risks_in_unit_interval (p : RiskPredictionDto) :
    0 ≤ (predictReadmissionRisk p).risk30Day ∧ (predictReadmissionRisk p).risk30Day ≤ 1 ∧
      0 ≤ (predictReadmissionRisk p).risk60Day ∧ (predictReadmissionRisk p).risk60Day ≤ 1 ∧
      0 ≤ (predictReadmissionRisk p).risk90Day ∧ (predictReadmissionRisk p).risk90Day ≤ 1 := by
  rw [predict_risk30, predict_risk60, predict_risk90]
  refine ⟨?_, ?_, ?_, ?_, ?_, ?_⟩
  · exact le_min (le_max_right _ _) zero_le_one
  · exact min_le_right _ _
  · exact le_min (le_max_right _ _) zero_le_one
  · exact min_le_right _ _
  · exact le_min (le_max_right _ _) zero_le_one
  · exact min_le_right _ _

/-- C9 counterexample: at the spec's baseline example features the returned
30-day risk differs from the claimed value 0.2925 by more than 0.004 (it is
about 0.2981), so the claimed approximation is wrong. -/
theorem c9_counterexample :
    0.004 < |(predictReadmissionRisk exampleLow).risk30Day - 0.2925| := by
  obtain ⟨h1, _⟩ := exampleLow_risk30_bounds
  rw [abs_of_pos (by linarith)]
  linarith

/-- C9 (amended): for the baseline features (age 65, no comorbidities, no
prior admissions, no conditions, socioeconomic index 50) the linear predictor
is 0, the returned hazardRatio is exp(0) = 1, risk30Day equals
1 − exp(−(30/60)^1.5) ≈ 0.2981 (in (0.297, 0.299), not 0.2925), and the risk
category is "low". -/
theorem c9_baseline_example :
    (predictReadmissionRisk exampleLow).hazardRatio = 1 ∧
      (predictReadmissionRisk exampleLow).risk30Day =
        1 - Real.exp (-(((30 : ℝ) / 60) ^ (1.5 : ℝ))) ∧
      0.297 < (predictReadmissionRisk exampleLow).risk30Day ∧
      (predictReadmissionRisk exampleLow).risk30Day < 0.299 ∧
      (predictReadmissionRisk exampleLow).riskCategory = "low" :=
  ⟨by rw [predict_hr, score_exampleLow],
   exampleLow_risk30_eq, exampleLow_risk30_bounds.1, exampleLow_risk30_bounds.2,
   exampleLow_category⟩

/-- C10: the care plan attached to an assessment is always consistent with
its risk category: the raw 30-day risk already lies in [0, 1), so clamping
never changes it, and generating the plan by re-branching on the clamped
risk30Day coincides with selecting by the category string. -/
theorem c10_care_plan_matches_category (p : RiskPredictionDto) :
    (predictReadmissionRisk p).risk30Day =
        1 - calculateWeibullSurvival 30 1.5 60 ^ calculateCoxRiskScore p ∧
      generateCarePlan (predictReadmissionRisk p) =
        selectCarePlan ((predictReadmissionRisk p).riskCategory) := by
  refine ⟨predict_risk30_eq p, ?_⟩
  rw [predict_category_eq]
  by_cases h6 : (predictReadmissionRisk p).risk30Day > 0.6
  · rw [riskCategoryOf_eq_high.mpr h6]
    unfold generateCarePlan selectCarePlan
    rw [if_pos h6, if_pos rfl]
  · by_cases h3 : (predictReadmissionRisk p).risk30Day > 0.3
    · rw [riskCategoryOf_eq_medium.mpr ⟨h3, not_lt.mp h6⟩]
      unfold generateCarePlan selectCarePlan
      rw [if_neg h6, if_pos h3, if_neg (by decide), if_pos rfl]
    · rw [riskCategoryOf_eq_low.mpr (not_lt.mp h3)]
      unfold generateCarePlan selectCarePlan
      rw [if_neg h6, if_neg h3, if_neg (by decide), if_neg (by decide)]

end Readmission
